import Mathlib

/-!
# RouterWS: a shallow embedding of the WebSocket HTTP router core

This file embeds the core of the RouterWS repository (`src/server.js` and
`src/utils/timeUtils.js`) into Lean and proves the specified properties of
the connection registry, the broadcast engine, the connection lifecycle
handler and the clock/timestamp provider.

Modelling conventions:
* JS `Date` instants are epoch milliseconds (`Int`).
* The runtime's IANA timezone database (consulted by the `Intl`-backed
  builtins `Date.prototype.toLocaleString` etc.) is a parameter
  `resolve : String → Option Int` mapping a timezone label to its offset in
  minutes; `none` means the label is invalid, in which case the builtin
  throws a `RangeError`.  A concrete sample database `tzdb` mirroring
  `getCommonTimezones()` is used for witnesses.
* Fallible JS code (code that can throw) returns `Except String α`; the
  `error` payload stands for the thrown exception's message.
* JS `Math.floor(a / b)` on integer millisecond values is `Int.fdiv`, and
  the JS remainder `a % b` (sign of the dividend) is `Int.tmod`.
* The `ws` client set `clients` (a JS `Set`) is a `List Client` in insertion
  order; `Set.delete` removes the (unique) element with the given identity,
  embedded as a filter.
-/

namespace RouterWS

/-! ## JSON values (the payloads handled by `express.json()` / `JSON.stringify`) -/

/-- A JSON value, as produced by `express.json()` body parsing and consumed by
`JSON.stringify`.  Numbers are restricted to integers; no claim depends on
non-integral numerics. -/
inductive JSON where
  | null
  | bool (b : Bool)
  | num (n : Int)
  | str (s : String)
  | arr (xs : List JSON)
  | obj (fields : List (String × JSON))

/-- JS truthiness of a JSON value, as tested by `if (!messageData)` in
`server.js`: `null`, `false`, `0` and the empty string are falsy; arrays and
objects (even empty ones) are truthy. -/
def JSON.truthy : JSON → Bool
  | .null => false
  | .bool b => b
  | .num n => n != 0
  | .str s => s != ""
  | .arr _ => true
  | .obj _ => true

/-- String escaping performed by `JSON.stringify` (quote and backslash; other
escapes do not occur in the claims' inputs). -/
def escapeChar (c : Char) : String :=
  if c = '"' then "\\\"" else if c = '\\' then "\\\\" else String.singleton c

/-- Serialization of a JSON string literal. -/
def jsonString (s : String) : String :=
  "\"" ++ String.join (s.toList.map escapeChar) ++ "\""

mutual

/-- `JSON.stringify`: canonical serialization of a JSON value, fields in
object order. -/
def stringify : JSON → String
  | .null => "null"
  | .bool true => "true"
  | .bool false => "false"
  | .num n => toString n
  | .str s => jsonString s
  | .arr xs => "[" ++ stringifyList xs ++ "]"
  | .obj fs => "\x7b" ++ stringifyFields fs ++ "\x7d"

/-- Comma-joined serialization of the elements of a JSON array. -/
def stringifyList : List JSON → String
  | [] => ""
  | [x] => stringify x
  | x :: y :: xs => stringify x ++ "," ++ stringifyList (y :: xs)

/-- Comma-joined serialization of the fields of a JSON object. -/
def stringifyFields : List (String × JSON) → String
  | [] => ""
  | [(k, v)] => jsonString k ++ ":" ++ stringify v
  | (k, v) :: f :: fs => jsonString k ++ ":" ++ stringify v ++ "," ++ stringifyFields (f :: fs)

end

/-! ## Clock / timestamp provider (`src/utils/timeUtils.js`) -/

/-- `DEFAULT_TIMEZONE` from `timeUtils.js` (`process.env.TZ || 'Asia/Shanghai'`,
with the environment variable unset). -/
def DEFAULT_TIMEZONE : String := "Asia/Shanghai"

/-- Models the JS builtin `Date.prototype.toISOString`: a total, injective
rendering of the epoch milliseconds.  No claim inspects the concrete
characters of the ISO string, only its propagation. -/
def jsToISOString (ms : Int) : String :=
  "iso:" ++ toString ms

/-- Models the JS builtin `Date.prototype.toLocaleString` with a `timeZone`
option: throws `RangeError` when the runtime's timezone database does not
know the label, otherwise renders the instant deterministically from the
instant, locale, label and resolved offset. -/
def jsToLocaleString (resolve : String → Option Int) (ms : Int) (locale : String)
    (tz : String) : Except String String :=
  match resolve tz with
  | some off =>
      .ok ("local:" ++ toString ms ++ ":" ++ locale ++ ":" ++ tz ++ ":" ++ toString off)
  | none => .error ("Invalid time zone specified: " ++ tz)

/-- `formatToISO` from `timeUtils.js`: `date.toISOString()`; the timezone
argument is accepted and ignored. -/
def formatToISO (dateMs : Int) (_tz : String) : String :=
  jsToISOString dateMs

/-- `formatToLocal` from `timeUtils.js`: `date.toLocaleString(locale,
\x7btimeZone: timezone, ...\x7d)` with default locale `zh-CN`.  Throws when the
timezone label is invalid. -/
def formatToLocal (resolve : String → Option Int) (dateMs : Int) (tz : String)
    (locale : String) : Except String String :=
  jsToLocaleString resolve dateMs locale tz

/-- `formatCompact` from `timeUtils.js`: `date.toLocaleString('sv-SE',
\x7btimeZone\x7d).replace('T', ' ')`.  Throws when the timezone label is invalid. -/
def formatCompact (resolve : String → Option Int) (dateMs : Int) (tz : String) :
    Except String String :=
  match jsToLocaleString resolve dateMs "sv-SE" tz with
  | .ok s => .ok (s.replace "T" " ")
  | .error e => .error e

/-- `formatHumanReadableUptime` from `timeUtils.js`: pushes the nonzero
leading components and always the seconds, then joins with a space. -/
def formatHumanReadableUptime (days hours minutes seconds : Int) : String :=
  let parts : List String :=
    (if days > 0 then [toString days ++ "天"] else []) ++
    (if hours > 0 || days > 0 then [toString hours ++ "小时"] else []) ++
    (if minutes > 0 || hours > 0 || days > 0 then [toString minutes ++ "分钟"] else []) ++
    [toString seconds ++ "秒"]
  String.intercalate " " parts

/-- The uptime record returned by `calculateUptime`. -/
structure Uptime where
  total_milliseconds : Int
  total_seconds : Int
  days : Int
  hours : Int
  minutes : Int
  seconds : Int
  formatted : String
  formatted_en : String
  human_readable : String
deriving DecidableEq, Repr

/-- `calculateUptime` from `timeUtils.js`: successive integer division of the
millisecond delta (`Math.floor` is `Int.fdiv`, the JS remainder is
`Int.tmod`). -/
def calculateUptime (startMs endMs : Int) : Uptime :=
  let uptime := endMs - startMs
  -- the source writes the constants as 1000*60*60*24, 1000*60*60 and 1000*60
  let days := Int.fdiv uptime 86400000
  let hours := Int.fdiv (Int.tmod uptime 86400000) 3600000
  let minutes := Int.fdiv (Int.tmod uptime 3600000) 60000
  let seconds := Int.fdiv (Int.tmod uptime 60000) 1000
  { total_milliseconds := uptime
    total_seconds := Int.fdiv uptime 1000
    days := days
    hours := hours
    minutes := minutes
    seconds := seconds
    formatted := toString days ++ "天 " ++ toString hours ++ "小时 " ++
      toString minutes ++ "分钟 " ++ toString seconds ++ "秒"
    formatted_en := toString days ++ "d " ++ toString hours ++ "h " ++
      toString minutes ++ "m " ++ toString seconds ++ "s"
    human_readable := formatHumanReadableUptime days hours minutes seconds }

/-- `getTimezoneOffset` from `timeUtils.js`: computes the offset in minutes by
round-tripping `toLocaleString` renderings through `Date` parsing; the net
result is the runtime database's offset for the label, and the
`toLocaleString` call throws when the label is invalid. -/
def getTimezoneOffset (resolve : String → Option Int) (tz : String) :
    Except String Int :=
  match resolve tz with
  | some off => .ok off
  | none => .error ("Invalid time zone specified: " ++ tz)

/-- `formatTimezoneOffset` from `timeUtils.js`: sign, two-digit-padded hours
and minutes. -/
def formatTimezoneOffset (offsetMinutes : Int) : String :=
  let sign := if offsetMinutes ≥ 0 then "+" else "-"
  let absOffset := offsetMinutes.natAbs
  let hours := absOffset / 60
  let minutes := absOffset % 60
  let pad2 : Nat → String := fun n => if n < 10 then "0" ++ toString n else toString n
  sign ++ pad2 hours ++ ":" ++ pad2 minutes

/-- The timezone-information record returned by `getTimezoneInfo`; the `error`
field is present exactly on the invalid-timezone fallback path. -/
structure TimezoneInfo where
  timezone : String
  offset : Int
  offsetString : String
  localTime : String
  utcTime : String
  error : Option String
deriving DecidableEq, Repr

/-- `getTimezoneInfo` from `timeUtils.js`: the whole body is inside
`try/catch`; any throw from the offset computation or the localized
rendering is caught and replaced by the fixed UTC fallback annotated with an
`Invalid timezone` error field.  (In the source `getTimezoneInfo` captures
its own `new Date()`; the claims never compare that instant with the caller's,
so the model reuses the caller's instant.) -/
def getTimezoneInfo (resolve : String → Option Int) (nowMs : Int) (tz : String) :
    TimezoneInfo :=
  match getTimezoneOffset resolve tz, formatToLocal resolve nowMs tz "zh-CN" with
  | .ok off, .ok loc =>
      { timezone := tz
        offset := off
        offsetString := formatTimezoneOffset off
        localTime := loc
        utcTime := jsToISOString nowMs
        error := none }
  | _, _ =>
      { timezone := "UTC"
        offset := 0
        offsetString := "+00:00"
        localTime := jsToISOString nowMs
        utcTime := jsToISOString nowMs
        error := some ("Invalid timezone: " ++ tz) }

/-- The timestamp record returned by `createTimestamp`.  The source field
`local` is called `localStr` here (`local` is reserved in Lean). -/
structure Timestamp where
  iso : String
  localStr : String
  compact : String
  unix : Int
  milliseconds : Int
  timezone : TimezoneInfo
deriving DecidableEq, Repr

/-- `createTimestamp` from `timeUtils.js`.  The object literal evaluates
`formatToISO` (total), then `formatToLocal` and `formatCompact` — both of
which throw on an invalid timezone label and are NOT wrapped in any
`try/catch` here — and finally `getTimezoneInfo` (which catches internally).
A throw from `formatToLocal` escapes `createTimestamp` itself. -/
def createTimestamp (resolve : String → Option Int) (dateMs : Int) (tz : String) :
    Except String Timestamp :=
  match formatToLocal resolve dateMs tz "zh-CN", formatCompact resolve dateMs tz with
  | .error e, _ => .error e
  | _, .error e => .error e
  | .ok loc, .ok comp =>
      .ok { iso := formatToISO dateMs tz
            localStr := loc
            compact := comp
            unix := Int.fdiv dateMs 1000
            milliseconds := dateMs
            timezone := getTimezoneInfo resolve dateMs tz }

/-- `isValidTimezone` from `timeUtils.js`: `Intl.DateTimeFormat` with the
label succeeds exactly when the runtime database knows it. -/
def isValidTimezone (resolve : String → Option Int) (tz : String) : Bool :=
  (resolve tz).isSome

/-- A sample runtime timezone database covering `getCommonTimezones()` from
`timeUtils.js` (offsets in minutes); all other labels are invalid.  Used to
instantiate witnesses. -/
def tzdb : String → Option Int
  | "Asia/Shanghai" => some 480
  | "Asia/Tokyo" => some 540
  | "Asia/Seoul" => some 540
  | "Asia/Hong_Kong" => some 480
  | "Asia/Singapore" => some 480
  | "Europe/London" => some 0
  | "Europe/Paris" => some 60
  | "America/New_York" => some (-300)
  | "America/Los_Angeles" => some (-480)
  | "UTC" => some 0
  | _ => none

/-! ## Connection registry (`src/server.js`, `const clients = new Set()`) -/

/-- The `ws` `readyState` values. -/
inductive ReadyState where
  | CONNECTING
  | OPEN
  | CLOSING
  | CLOSED
deriving DecidableEq, Repr

/-- One WebSocket connection as the broadcast engine sees it: an opaque
identity (JS object identity of the `ws` handle), the transport state, and
whether a transport write on it succeeds (the outcome of the fire-and-forget
`client.send`). -/
structure Client where
  id : Nat
  readyState : ReadyState
  sendOk : Bool
deriving DecidableEq, Repr

/-- The registry `clients : Set` in insertion order. -/
abbrev Registry := List Client

/-- The identities currently present in the registry. -/
def memberIds (reg : Registry) : List Nat :=
  reg.map Client.id

/-- `clients.add(ws)`: a JS `Set` ignores an add of an already-present
element and otherwise appends in insertion order. -/
def registerClient (reg : Registry) (c : Client) : Registry :=
  if c.id ∈ memberIds reg then reg else reg ++ [c]

/-- `clients.delete(ws)`: removes the element with the given identity if
present (a JS `Set` holds at most one element per identity, so the filter
form coincides with single-element removal); deleting an absent element
changes nothing. -/
def deregisterClient (reg : Registry) (cid : Nat) : Registry :=
  reg.filter (fun x => x.id ≠ cid)

/-! ## Broadcast engine (`broadcastMessage` in `src/server.js`) -/

/-- The broadcast envelope object built once per `broadcastMessage` call:
`\x7btype: 'broadcast', data: message, timestamp: timestamp.iso, localTime:
timestamp.local, timezone: timestamp.timezone.timezone\x7d`. -/
structure Envelope where
  type : String
  data : JSON
  timestamp : String
  localTime : String
  timezone : String

/-- The JSON object literal serialized by `broadcastMessage`. -/
def envelopeJSON (e : Envelope) : JSON :=
  .obj [("type", .str e.type), ("data", e.data), ("timestamp", .str e.timestamp),
        ("localTime", .str e.localTime), ("timezone", .str e.timezone)]

/-- `JSON.stringify` applied to the envelope: the single `messageStr` shared
by all deliveries of one broadcast invocation. -/
def serializeEnvelope (e : Envelope) : String :=
  stringify (envelopeJSON e)

/-- The broadcast envelope for a payload and a timestamp snapshot. -/
def envelopeOf (message : JSON) (ts : Timestamp) : Envelope :=
  { type := "broadcast"
    data := message
    timestamp := ts.iso
    localTime := ts.localStr
    timezone := ts.timezone.timezone }

/-- One attempted delivery: which connection, the exact bytes handed to
`client.send`, and the transport write outcome (ignored by the engine). -/
structure Delivery where
  clientId : Nat
  content : String
  writeOk : Bool
deriving DecidableEq, Repr

/-- The `clients.forEach` loop of `broadcastMessage`: a write is attempted on
exactly the members whose `readyState` is `OPEN`, in registry order; each
attempt is fire-and-forget (`client.send(messageStr)` with no callback), so
an individual write failure is recorded in the outcome and never thrown into
the loop. -/
def deliveriesFor (clients : Registry) (messageStr : String) : List Delivery :=
  clients.filterMap fun c =>
    if c.readyState = ReadyState.OPEN then
      some { clientId := c.id, content := messageStr, writeOk := c.sendOk }
    else none

/-- Everything one `broadcastMessage` invocation constructs: the single
envelope, its one serialization, and the attempted deliveries. -/
structure BroadcastRun where
  envelope : Envelope
  messageStr : String
  deliveries : List Delivery

/-- `broadcastMessage` from `src/server.js`: takes one timestamp snapshot,
serializes one envelope, and hands the same string to every `OPEN` member of
the registry.  The only way it can throw is `createTimestamp` (an invalid
configured timezone). -/
def broadcastMessage (resolve : String → Option Int) (nowMs : Int) (tz : String)
    (clients : Registry) (message : JSON) : Except String BroadcastRun :=
  match createTimestamp resolve nowMs tz with
  | .error e => .error e
  | .ok ts =>
      let env := envelopeOf message ts
      let messageStr := serializeEnvelope env
      .ok { envelope := env, messageStr := messageStr,
            deliveries := deliveriesFor clients messageStr }

instance : Inhabited Timestamp :=
  ⟨{ iso := "", localStr := "", compact := "", unix := 0, milliseconds := 0,
     timezone := { timezone := "", offset := 0, offsetString := "", localTime := "",
                   utcTime := "", error := none } }⟩

/-- Projection of a broadcast result defaulting on the error case (used only
under an `isOk` hypothesis in the theorems below). -/
def runOf (r : Except String BroadcastRun) : BroadcastRun :=
  match r with
  | .ok run => run
  | .error _ => { envelope := envelopeOf .null default, messageStr := "", deliveries := [] }

/-- Projection of a timestamp result defaulting on the error case (used only
under an `isOk` hypothesis in the theorems below). -/
def tsOf (r : Except String Timestamp) : Timestamp :=
  match r with
  | .ok ts => ts
  | .error _ => default

/-! ## The submission channel (`POST /api/sendmsg` in `src/server.js`) -/

/-- The three response shapes of the `/api/sendmsg` handler: `res.json(...)`
with `success:true`, `res.status(400)` and `res.status(500)`. -/
inductive SendmsgResponse where
  | ok (clientCount : Nat) (timestamp : String) (localTime : String) (timezone : String)
  | badRequest (error : String)
  | internalError (error : String)
deriving DecidableEq, Repr

/-- The guard `if (!messageData)` of the handler: the request body is missing
(`none`) or JS-falsy.  This is the code's notion of a missing/empty
submission payload. -/
def payloadMissingOrEmpty (body : Option JSON) : Bool :=
  match body with
  | none => true
  | some v => !v.truthy

/-- The `POST /api/sendmsg` handler: reject a missing/empty body with 400
before any broadcast work; otherwise broadcast, then answer with
`clients.size` and a fresh response timestamp.  The surrounding `try/catch`
turns any throw into a 500.  `bMs` is the instant at which
`broadcastMessage` runs and `rMs` the (later) instant of the response
timestamp.  The second component is the list of delivery attempts the
request caused. -/
def sendmsgHandler (resolve : String → Option Int) (bMs rMs : Int) (tz : String)
    (clients : Registry) (body : Option JSON) : SendmsgResponse × List Delivery :=
  match body with
  | none => (.badRequest "请求体不能为空", [])
  | some messageData =>
      if !messageData.truthy then (.badRequest "请求体不能为空", [])
      else
        match broadcastMessage resolve bMs tz clients messageData with
        | .error _ => (.internalError "服务器内部错误", [])
        | .ok run =>
            match createTimestamp resolve rMs tz with
            | .error _ => (.internalError "服务器内部错误", run.deliveries)
            | .ok rts =>
                (.ok clients.length rts.iso rts.localStr rts.timezone.timezone,
                 run.deliveries)

/-! ## Connection lifecycle handler (`wss.on('connection')` in `src/server.js`) -/

/-- The events a live connection's handlers can receive. -/
inductive WsEvent where
  | close
  | error
  | message (s : String)
deriving DecidableEq, Repr

/-- Close and transport error are the two deregistration triggers. -/
def isTrigger : WsEvent → Bool
  | .close => true
  | .error => true
  | .message _ => false

/-- Observable outcome of handling one event: the registry afterwards, the
frames sent back on this connection, and how many broadcast invocations and
timestamp snapshots the handling performed. -/
structure StepResult where
  registry : Registry
  replies : List String
  broadcastsInvoked : Nat
  timestampsTaken : Nat
deriving DecidableEq, Repr

/-- The `ws.on('message')` handler: a `'ping'` frame is answered with exactly
one `'pong'`; short non-JSON-looking text is only logged; anything else goes
through a logged `JSON.parse` attempt whose failure is swallowed.  No branch
touches the registry, broadcasts, or takes a timestamp. -/
def handleMessage (reg : Registry) (s : String) : StepResult :=
  if s = "ping" then
    { registry := reg, replies := ["pong"], broadcastsInvoked := 0, timestampsTaken := 0 }
  else if s.length < 100 && !(s.startsWith "\x7b") && !(s.startsWith "[") then
    { registry := reg, replies := [], broadcastsInvoked := 0, timestampsTaken := 0 }
  else
    { registry := reg, replies := [], broadcastsInvoked := 0, timestampsTaken := 0 }

/-- Dispatch of one event on the connection with identity `cid`: the
`ws.on('close')` and `ws.on('error')` handlers both run
`clients.delete(ws)`; message frames go to `handleMessage`. -/
def handleEvent (cid : Nat) (reg : Registry) : WsEvent → StepResult
  | .close =>
      { registry := deregisterClient reg cid, replies := [],
        broadcastsInvoked := 0, timestampsTaken := 0 }
  | .error =>
      { registry := deregisterClient reg cid, replies := [],
        broadcastsInvoked := 0, timestampsTaken := 0 }
  | .message s => handleMessage reg s

/-- The registry after the connection `cid` has handled a sequence of
events. -/
def runEvents (cid : Nat) (reg : Registry) : List WsEvent → Registry
  | [] => reg
  | e :: es => runEvents cid (handleEvent cid reg e).registry es

/-- How many events of a sequence actually remove `cid` from the registry
(membership goes from present to absent across the step). -/
def deregCount (cid : Nat) (reg : Registry) : List WsEvent → Nat
  | [] => 0
  | e :: es =>
      let reg' := (handleEvent cid reg e).registry
      (if cid ∈ memberIds reg ∧ cid ∉ memberIds reg' then 1 else 0) +
        deregCount cid reg' es

/-! ## Helper lemmas -/

/-- Once a timezone label resolves, `createTimestamp` succeeds. -/
lemma createTimestamp_isOk {resolve : String → Option Int} {tz : String}
    (ms : Int) (htz : (resolve tz).isSome = true) :
    ∃ ts, createTimestamp resolve ms tz = Except.ok ts := by
  obtain ⟨off, hoff⟩ := Option.isSome_iff_exists.mp htz
  simp only [createTimestamp, formatToLocal, formatCompact, jsToLocaleString, hoff]
  exact ⟨_, rfl⟩

/-- Every delivery of one broadcast run carries the run's single serialized
message string. -/
lemma content_of_mem_deliveriesFor {clients : Registry} {s : String} {d : Delivery}
    (h : d ∈ deliveriesFor clients s) : d.content = s := by
  simp only [deliveriesFor, List.mem_filterMap] at h
  obtain ⟨c, _, heq⟩ := h
  by_cases hopen : c.readyState = ReadyState.OPEN
  · simp [hopen] at heq
    rw [← heq]
  · simp [hopen] at heq

/-- The attempted deliveries are exactly the `OPEN` members, in registry
order. -/
lemma deliveriesFor_map_clientId (clients : Registry) (s : String) :
    (deliveriesFor clients s).map Delivery.clientId =
      (clients.filter fun c => decide (c.readyState = ReadyState.OPEN)).map Client.id := by
  induction clients with
  | nil => rfl
  | cons a rest ih =>
      by_cases h : a.readyState = ReadyState.OPEN
      · simp only [deliveriesFor, List.filterMap_cons, h, if_pos, List.filter_cons,
          decide_eq_true h, List.map_cons] at ih ⊢
        simp [h, ih]
      · simp only [deliveriesFor, List.filterMap_cons, List.filter_cons] at ih ⊢
        simp [h, ih]

/-- Deleting an absent identity from the registry is the identity map. -/
lemma deregister_of_not_mem {reg : Registry} {cid : Nat}
    (h : cid ∉ memberIds reg) : deregisterClient reg cid = reg := by
  simp only [memberIds, List.mem_map, not_exists] at h
  refine List.filter_eq_self.mpr fun x hx => ?_
  simpa using fun hcontra => (h x) ⟨hx, hcontra⟩

/-- Deleting an identity removes it from the registry. -/
lemma not_mem_memberIds_deregister (reg : Registry) (cid : Nat) :
    cid ∉ memberIds (deregisterClient reg cid) := by
  simp [memberIds, deregisterClient, List.mem_filter]

/-! ## C8 -/

/-- C8: deregistering is idempotent — deregistering a connection that is
already absent from the registry leaves the registry (hence its membership
and size) unchanged and is not an error, and a second deregistration of the
same connection is a no-op. -/
theorem deregister_idempotent (reg : Registry) (cid : Nat) :
    (cid ∉ memberIds reg → deregisterClient reg cid = reg) ∧
    deregisterClient (deregisterClient reg cid) cid = deregisterClient reg cid ∧
    (cid ∉ memberIds reg → (deregisterClient reg cid).length = reg.length) := by
  refine ⟨fun h => deregister_of_not_mem h, ?_, fun h => by rw [deregister_of_not_mem h]⟩
  exact deregister_of_not_mem (not_mem_memberIds_deregister reg cid)

/-- C8 witness: deleting the absent identity 3 from a two-member registry. -/
theorem deregister_idempotent_witness :
    (3 ∉ memberIds [⟨1, ReadyState.OPEN, true⟩, ⟨2, ReadyState.OPEN, true⟩] →
      deregisterClient [⟨1, ReadyState.OPEN, true⟩, ⟨2, ReadyState.OPEN, true⟩] 3 =
        [⟨1, ReadyState.OPEN, true⟩, ⟨2, ReadyState.OPEN, true⟩]) ∧
    deregisterClient
        (deregisterClient [⟨1, ReadyState.OPEN, true⟩, ⟨2, ReadyState.OPEN, true⟩] 3) 3 =
      deregisterClient [⟨1, ReadyState.OPEN, true⟩, ⟨2, ReadyState.OPEN, true⟩] 3 ∧
    (3 ∉ memberIds [⟨1, ReadyState.OPEN, true⟩, ⟨2, ReadyState.OPEN, true⟩] →
      (deregisterClient [⟨1, ReadyState.OPEN, true⟩, ⟨2, ReadyState.OPEN, true⟩] 3).length =
        ([⟨1, ReadyState.OPEN, true⟩, ⟨2, ReadyState.OPEN, true⟩] : Registry).length) :=
  deregister_idempotent [⟨1, ReadyState.OPEN, true⟩, ⟨2, ReadyState.OPEN, true⟩] 3

/-! ## C9 -/

/-- C9: an inbound `"ping"` frame on an open connection yields exactly one
`"pong"` reply, leaves the registry untouched, and triggers no broadcast
invocation and no timestamp work. -/
theorem ping_yields_single_pong (cid : Nat) (reg : Registry) :
    handleEvent cid reg (.message "ping") =
      { registry := reg, replies := ["pong"], broadcastsInvoked := 0,
        timestampsTaken := 0 } := rfl

/-! ## C4 -/

/-- C4: a submission whose payload is missing or JS-empty (the `!messageData`
guard) is answered with the bad-request response, and the broadcast engine is
never invoked — the request causes no delivery attempt at all. -/
theorem sendmsg_rejects_missing_or_empty_payload
    (resolve : String → Option Int) (bMs rMs : Int) (tz : String)
    (clients : Registry) (body : Option JSON)
    (h : payloadMissingOrEmpty body = true) :
    sendmsgHandler resolve bMs rMs tz clients body =
      (.badRequest "请求体不能为空", []) := by
  cases body with
  | none => rfl
  | some v =>
      simp only [payloadMissingOrEmpty, Bool.not_eq_true'] at h
      simp [sendmsgHandler, h]

/-- C4 witness: a request with no body is rejected with 400 and causes no
deliveries. -/
theorem sendmsg_rejects_missing_or_empty_payload_witness :
    payloadMissingOrEmpty none = true ∧
    sendmsgHandler tzdb 0 0 DEFAULT_TIMEZONE [⟨1, ReadyState.OPEN, true⟩] none =
      (.badRequest "请求体不能为空", []) :=
  ⟨rfl, sendmsg_rejects_missing_or_empty_payload tzdb 0 0 DEFAULT_TIMEZONE
    [⟨1, ReadyState.OPEN, true⟩] none rfl⟩

/-! ## C5 -/

/-- C5 (code evaluation at the failing input): for an invalid timezone label
the timestamp formatter `createTimestamp` DOES raise — its `formatToLocal`
call throws outside any `try/catch` — even though `getTimezoneInfo` alone
would have degraded to the annotated UTC fallback, as the claim describes. -/
theorem createTimestamp_raises_on_invalid_timezone :
    createTimestamp tzdb 0 "Invalid/Zone" =
      Except.error "Invalid time zone specified: Invalid/Zone" ∧
    (getTimezoneInfo tzdb 0 "Invalid/Zone").timezone = "UTC" ∧
    (getTimezoneInfo tzdb 0 "Invalid/Zone").offsetString = "+00:00" ∧
    (getTimezoneInfo tzdb 0 "Invalid/Zone").error =
      some "Invalid timezone: Invalid/Zone" := by
  refine ⟨?_, ?_, ?_, ?_⟩ <;> rfl

/-! ## C6 -/

/-- C6: for a non-negative millisecond delta, the successive-integer-division
decomposition of `calculateUptime` under-approximates the total by less than
one second, reconstructing the total from the components plus the sub-second
remainder is exact, and the 7,265,432 ms scenario yields 0 days, 2 hours,
1 minute, 5 seconds. -/
theorem calculateUptime_decomposition (startMs endMs : Int) (h : startMs ≤ endMs) :
    (calculateUptime startMs endMs).days * 86400000 +
        (calculateUptime startMs endMs).hours * 3600000 +
        (calculateUptime startMs endMs).minutes * 60000 +
        (calculateUptime startMs endMs).seconds * 1000 ≤
      (calculateUptime startMs endMs).total_milliseconds ∧
    (calculateUptime startMs endMs).total_milliseconds <
      (calculateUptime startMs endMs).days * 86400000 +
        (calculateUptime startMs endMs).hours * 3600000 +
        (calculateUptime startMs endMs).minutes * 60000 +
        (calculateUptime startMs endMs).seconds * 1000 + 1000 ∧
    (calculateUptime startMs endMs).days * 86400000 +
        (calculateUptime startMs endMs).hours * 3600000 +
        (calculateUptime startMs endMs).minutes * 60000 +
        (calculateUptime startMs endMs).seconds * 1000 +
        (endMs - startMs) % 1000 =
      (calculateUptime startMs endMs).total_milliseconds ∧
    (calculateUptime startMs endMs).total_milliseconds = endMs - startMs ∧
    (calculateUptime 0 7265432).days = 0 ∧
    (calculateUptime 0 7265432).hours = 2 ∧
    (calculateUptime 0 7265432).minutes = 1 ∧
    (calculateUptime 0 7265432).seconds = 5 ∧
    (calculateUptime 0 7265432).total_milliseconds = 7265432 := by
  have h0 : (0 : Int) ≤ endMs - startMs := by omega
  have m1 : Int.tmod (endMs - startMs) 86400000 = (endMs - startMs) % 86400000 :=
    Int.tmod_eq_emod h0 (by norm_num)
  have m2 : Int.tmod (endMs - startMs) 3600000 = (endMs - startMs) % 3600000 :=
    Int.tmod_eq_emod h0 (by norm_num)
  have m3 : Int.tmod (endMs - startMs) 60000 = (endMs - startMs) % 60000 :=
    Int.tmod_eq_emod h0 (by norm_num)
  have d1 : Int.fdiv (endMs - startMs) 86400000 = (endMs - startMs) / 86400000 :=
    Int.fdiv_eq_ediv _ (by norm_num)
  have d2 : Int.fdiv ((endMs - startMs) % 86400000) 3600000 =
      ((endMs - startMs) % 86400000) / 3600000 :=
    Int.fdiv_eq_ediv _ (by norm_num)
  have d3 : Int.fdiv ((endMs - startMs) % 3600000) 60000 =
      ((endMs - startMs) % 3600000) / 60000 :=
    Int.fdiv_eq_ediv _ (by norm_num)
  have d4 : Int.fdiv ((endMs - startMs) % 60000) 1000 =
      ((endMs - startMs) % 60000) / 1000 :=
    Int.fdiv_eq_ediv _ (by norm_num)
  refine ⟨?_, ?_, ?_, ?_, by decide, by decide, by decide, by decide, by decide⟩ <;>
    simp only [calculateUptime, m1, m2, m3, d1, d2, d3, d4] <;> omega

/-- C6 witness: the decomposition at the concrete delta 7,265,432 ms. -/
theorem calculateUptime_decomposition_witness :
    (calculateUptime 0 7265432).days * 86400000 +
        (calculateUptime 0 7265432).hours * 3600000 +
        (calculateUptime 0 7265432).minutes * 60000 +
        (calculateUptime 0 7265432).seconds * 1000 ≤
      (calculateUptime 0 7265432).total_milliseconds ∧
    (calculateUptime 0 7265432).total_milliseconds <
      (calculateUptime 0 7265432).days * 86400000 +
        (calculateUptime 0 7265432).hours * 3600000 +
        (calculateUptime 0 7265432).minutes * 60000 +
        (calculateUptime 0 7265432).seconds * 1000 + 1000 ∧
    (calculateUptime 0 7265432).days * 86400000 +
        (calculateUptime 0 7265432).hours * 3600000 +
        (calculateUptime 0 7265432).minutes * 60000 +
        (calculateUptime 0 7265432).seconds * 1000 +
        ((7265432 : Int) - 0) % 1000 =
      (calculateUptime 0 7265432).total_milliseconds ∧
    (calculateUptime 0 7265432).total_milliseconds = (7265432 : Int) - 0 ∧
    (calculateUptime 0 7265432).days = 0 ∧
    (calculateUptime 0 7265432).hours = 2 ∧
    (calculateUptime 0 7265432).minutes = 1 ∧
    (calculateUptime 0 7265432).seconds = 5 ∧
    (calculateUptime 0 7265432).total_milliseconds = 7265432 :=
  calculateUptime_decomposition 0 7265432 (by norm_num)

/-! ## Sample values used by witnesses -/

/-- Witness registry: three open clients, the middle one's transport write
fails. -/
def wClients : Registry :=
  [⟨1, ReadyState.OPEN, true⟩, ⟨2, ReadyState.OPEN, false⟩, ⟨3, ReadyState.OPEN, true⟩]

/-- Witness registry with a non-`OPEN` member. -/
def wClientsMixed : Registry :=
  [⟨1, ReadyState.OPEN, true⟩, ⟨2, ReadyState.CLOSING, true⟩, ⟨3, ReadyState.OPEN, true⟩]

/-- Witness payload from the spec scenario. -/
def wMsg : JSON := .obj [("msg", .str "hi")]

/-- Witness payload from the empty-registry scenario. -/
def wX1 : JSON := .obj [("x", .num 1)]

/-! ## C1 -/

/-- C1: one broadcast invocation constructs exactly one envelope — the
`"broadcast"` discriminator, the producer payload and one timestamp snapshot
taken once — and every delivery of the invocation carries the identical
serialized envelope content. -/
theorem broadcast_one_envelope_shared
    (resolve : String → Option Int) (nowMs : Int) (tz : String)
    (clients : Registry) (message : JSON)
    (htz : (resolve tz).isSome = true) :
    (broadcastMessage resolve nowMs tz clients message).isOk = true ∧
    (runOf (broadcastMessage resolve nowMs tz clients message)).envelope =
      envelopeOf message (tsOf (createTimestamp resolve nowMs tz)) ∧
    (runOf (broadcastMessage resolve nowMs tz clients message)).envelope.type =
      "broadcast" ∧
    (runOf (broadcastMessage resolve nowMs tz clients message)).envelope.data =
      message ∧
    (runOf (broadcastMessage resolve nowMs tz clients message)).messageStr =
      serializeEnvelope (runOf (broadcastMessage resolve nowMs tz clients message)).envelope ∧
    ∀ d ∈ (runOf (broadcastMessage resolve nowMs tz clients message)).deliveries,
      d.content = (runOf (broadcastMessage resolve nowMs tz clients message)).messageStr := by
  obtain ⟨ts, hts⟩ := createTimestamp_isOk nowMs htz
  have hbm : broadcastMessage resolve nowMs tz clients message =
      Except.ok { envelope := envelopeOf message ts
                  messageStr := serializeEnvelope (envelopeOf message ts)
                  deliveries :=
                    deliveriesFor clients (serializeEnvelope (envelopeOf message ts)) } := by
    simp [broadcastMessage, hts]
  refine ⟨?_, ?_, ?_, ?_, ?_, fun d hd => ?_⟩
  · simp [hbm, Except.isOk, Except.toBool]
  · simp [hbm, runOf, tsOf, hts]
  · simp [hbm, runOf, envelopeOf]
  · simp [hbm, runOf, envelopeOf]
  · simp [hbm, runOf]
  · simp only [hbm, runOf] at hd ⊢
    exact content_of_mem_deliveriesFor hd

/-- C1 witness: the three-client registry, payload `\x7b"msg":"hi"\x7d`, default
timezone. -/
theorem broadcast_one_envelope_shared_witness :
    (tzdb DEFAULT_TIMEZONE).isSome = true ∧
    ((broadcastMessage tzdb 1700000000000 DEFAULT_TIMEZONE wClients wMsg).isOk = true ∧
    (runOf (broadcastMessage tzdb 1700000000000 DEFAULT_TIMEZONE wClients wMsg)).envelope =
      envelopeOf wMsg (tsOf (createTimestamp tzdb 1700000000000 DEFAULT_TIMEZONE)) ∧
    (runOf (broadcastMessage tzdb 1700000000000 DEFAULT_TIMEZONE wClients wMsg)).envelope.type =
      "broadcast" ∧
    (runOf (broadcastMessage tzdb 1700000000000 DEFAULT_TIMEZONE wClients wMsg)).envelope.data =
      wMsg ∧
    (runOf (broadcastMessage tzdb 1700000000000 DEFAULT_TIMEZONE wClients wMsg)).messageStr =
      serializeEnvelope
        (runOf (broadcastMessage tzdb 1700000000000 DEFAULT_TIMEZONE wClients wMsg)).envelope ∧
    ∀ d ∈ (runOf (broadcastMessage tzdb 1700000000000 DEFAULT_TIMEZONE wClients wMsg)).deliveries,
      d.content =
        (runOf (broadcastMessage tzdb 1700000000000 DEFAULT_TIMEZONE wClients wMsg)).messageStr) :=
  ⟨rfl, broadcast_one_envelope_shared tzdb 1700000000000 DEFAULT_TIMEZONE wClients wMsg rfl⟩

/-! ## C2 -/

/-- Reduction of the happy-path `/api/sendmsg` invocation. -/
lemma sendmsgHandler_ok_eq (resolve : String → Option Int) (bMs rMs : Int)
    (tz : String) (clients : Registry) (message : JSON) (ts rts : Timestamp)
    (hts : createTimestamp resolve bMs tz = Except.ok ts)
    (hrts : createTimestamp resolve rMs tz = Except.ok rts)
    (hm : message.truthy = true) :
    sendmsgHandler resolve bMs rMs tz clients (some message) =
      (.ok clients.length rts.iso rts.localStr rts.timezone.timezone,
       deliveriesFor clients (serializeEnvelope (envelopeOf message ts))) := by
  simp [sendmsgHandler, hm, broadcastMessage, hts, hrts]

/-- C2: the count reported by the submission channel equals the registry size
at the moment of iteration (all members are counted as attempted, regardless
of write success); with an empty registry the call reports 0 and succeeds
with no error. -/
theorem sendmsg_reports_attempted_count
    (resolve : String → Option Int) (bMs rMs : Int) (tz : String)
    (clients : Registry) (body : JSON)
    (hb : JSON.truthy body = true) (htz : (resolve tz).isSome = true) :
    (sendmsgHandler resolve bMs rMs tz clients (some body)).1 =
      SendmsgResponse.ok clients.length
        (tsOf (createTimestamp resolve rMs tz)).iso
        (tsOf (createTimestamp resolve rMs tz)).localStr
        (tsOf (createTimestamp resolve rMs tz)).timezone.timezone ∧
    (clients = [] →
      (sendmsgHandler resolve bMs rMs tz clients (some body)).1 =
        SendmsgResponse.ok 0
          (tsOf (createTimestamp resolve rMs tz)).iso
          (tsOf (createTimestamp resolve rMs tz)).localStr
          (tsOf (createTimestamp resolve rMs tz)).timezone.timezone ∧
      (sendmsgHandler resolve bMs rMs tz clients (some body)).2 = []) := by
  obtain ⟨ts, hts⟩ := createTimestamp_isOk bMs htz
  obtain ⟨rts, hrts⟩ := createTimestamp_isOk rMs htz
  have hh := sendmsgHandler_ok_eq _ _ _ _ clients _ _ _ hts hrts hb
  constructor
  · simp [hh, tsOf, hrts]
  · rintro rfl
    constructor
    · simp [hh, tsOf, hrts]
    · simp [hh, deliveriesFor]

/-- C2 witness: the empty-registry scenario with payload `\x7b"x":1\x7d`. -/
theorem sendmsg_reports_attempted_count_witness :
    JSON.truthy wX1 = true ∧ (tzdb DEFAULT_TIMEZONE).isSome = true ∧
    ((sendmsgHandler tzdb 1700000000000 1700000000123 DEFAULT_TIMEZONE [] (some wX1)).1 =
      SendmsgResponse.ok ([] : Registry).length
        (tsOf (createTimestamp tzdb 1700000000123 DEFAULT_TIMEZONE)).iso
        (tsOf (createTimestamp tzdb 1700000000123 DEFAULT_TIMEZONE)).localStr
        (tsOf (createTimestamp tzdb 1700000000123 DEFAULT_TIMEZONE)).timezone.timezone ∧
    (([] : Registry) = [] →
      (sendmsgHandler tzdb 1700000000000 1700000000123 DEFAULT_TIMEZONE [] (some wX1)).1 =
        SendmsgResponse.ok 0
          (tsOf (createTimestamp tzdb 1700000000123 DEFAULT_TIMEZONE)).iso
          (tsOf (createTimestamp tzdb 1700000000123 DEFAULT_TIMEZONE)).localStr
          (tsOf (createTimestamp tzdb 1700000000123 DEFAULT_TIMEZONE)).timezone.timezone ∧
      (sendmsgHandler tzdb 1700000000000 1700000000123 DEFAULT_TIMEZONE [] (some wX1)).2 = [])) :=
  ⟨rfl, rfl,
    sendmsg_reports_attempted_count tzdb 1700000000000 1700000000123 DEFAULT_TIMEZONE
      [] wX1 rfl rfl⟩

/-! ## C3 and C10: per-client delivery accounting -/

/-- With distinct identities, an `OPEN` member is attempted exactly once per
broadcast invocation. -/
lemma count_id_filter_open (clients : Registry) (c : Client)
    (hid : (clients.map Client.id).Nodup) (hc : c ∈ clients)
    (hopen : c.readyState = ReadyState.OPEN) :
    ((clients.filter fun x => decide (x.readyState = ReadyState.OPEN)).map
        Client.id).count c.id = 1 := by
  induction clients with
  | nil => cases hc
  | cons a rest ih =>
      rw [List.map_cons, List.nodup_cons] at hid
      obtain ⟨ha, hrest⟩ := hid
      have hsub : ((rest.filter fun x =>
          decide (x.readyState = ReadyState.OPEN)).map Client.id) ⊆
            rest.map Client.id :=
        ((List.filter_sublist rest).map Client.id).subset
      rcases List.mem_cons.mp hc with rfl | hc'
      · have hzero : c.id ∉ ((rest.filter fun x =>
            decide (x.readyState = ReadyState.OPEN)).map Client.id) :=
          fun hmem => ha (hsub hmem)
        simp [List.filter_cons, hopen, List.count_eq_zero_of_not_mem hzero]
      · have hcid : c.id ∈ rest.map Client.id := List.mem_map.mpr ⟨c, hc', rfl⟩
        have hne : c.id ≠ a.id := fun hmm => ha (hmm ▸ hcid)
        by_cases hA : a.readyState = ReadyState.OPEN
        · simp [List.filter_cons, hA, List.count_cons_of_ne hne, ih hrest hc']
        · simp [List.filter_cons, hA, ih hrest hc']

/-- With distinct identities, a member whose transport is not `OPEN` gets no
delivery attempt. -/
lemma not_open_not_attempted (clients : Registry) (c : Client)
    (hid : (clients.map Client.id).Nodup) (hc : c ∈ clients)
    (hnot : c.readyState ≠ ReadyState.OPEN) :
    c.id ∉ ((clients.filter fun x => decide (x.readyState = ReadyState.OPEN)).map
        Client.id) := by
  intro hmem
  obtain ⟨c', hc', hcid⟩ := List.mem_map.mp hmem
  obtain ⟨hmemc', hdec⟩ := List.mem_filter.mp hc'
  exact hnot ((List.inj_on_of_nodup_map hid hmemc' hc hcid) ▸ of_decide_eq_true hdec)

/-- C3: a per-connection delivery failure inside one broadcast invocation is
absorbed by the fire-and-forget send — every `OPEN` connection in the
iterated snapshot (whatever the write outcomes of the others, e.g. a failing
middle connection) still gets exactly one attempt with the shared content,
and the submitter still receives the plain success response with the full
attempted count, with no failure surfaced. -/
theorem broadcast_failure_does_not_abort
    (resolve : String → Option Int) (bMs rMs : Int) (tz : String)
    (clients : Registry) (message : JSON)
    (hid : (clients.map Client.id).Nodup)
    (htz : (resolve tz).isSome = true) (hm : message.truthy = true) :
    (∀ c ∈ clients, c.readyState = ReadyState.OPEN →
      ((runOf (broadcastMessage resolve bMs tz clients message)).deliveries.map
          Delivery.clientId).count c.id = 1) ∧
    (∀ d ∈ (runOf (broadcastMessage resolve bMs tz clients message)).deliveries,
      d.content = (runOf (broadcastMessage resolve bMs tz clients message)).messageStr) ∧
    (sendmsgHandler resolve bMs rMs tz clients (some message)).1 =
      SendmsgResponse.ok clients.length
        (tsOf (createTimestamp resolve rMs tz)).iso
        (tsOf (createTimestamp resolve rMs tz)).localStr
        (tsOf (createTimestamp resolve rMs tz)).timezone.timezone := by
  obtain ⟨ts, hts⟩ := createTimestamp_isOk bMs htz
  obtain ⟨rts, hrts⟩ := createTimestamp_isOk rMs htz
  have hbm : broadcastMessage resolve bMs tz clients message =
      Except.ok { envelope := envelopeOf message ts
                  messageStr := serializeEnvelope (envelopeOf message ts)
                  deliveries :=
                    deliveriesFor clients (serializeEnvelope (envelopeOf message ts)) } := by
    simp [broadcastMessage, hts]
  refine ⟨fun c hc hopen => ?_, fun d hd => ?_, ?_⟩
  · simp only [hbm, runOf, deliveriesFor_map_clientId]
    exact count_id_filter_open clients c hid hc hopen
  · simp only [hbm, runOf] at hd ⊢
    exact content_of_mem_deliveriesFor hd
  · rw [sendmsgHandler_ok_eq _ _ _ _ clients _ _ _ hts hrts hm]
    simp [tsOf, hrts]

/-- C3 witness: three open connections, the middle one's write fails. -/
theorem broadcast_failure_does_not_abort_witness :
    (wClients.map Client.id).Nodup ∧
    (tzdb DEFAULT_TIMEZONE).isSome = true ∧ JSON.truthy wMsg = true ∧
    ((∀ c ∈ wClients, c.readyState = ReadyState.OPEN →
      ((runOf (broadcastMessage tzdb 1700000000000 DEFAULT_TIMEZONE wClients wMsg)).deliveries.map
          Delivery.clientId).count c.id = 1) ∧
    (∀ d ∈ (runOf (broadcastMessage tzdb 1700000000000 DEFAULT_TIMEZONE wClients wMsg)).deliveries,
      d.content =
        (runOf (broadcastMessage tzdb 1700000000000 DEFAULT_TIMEZONE wClients wMsg)).messageStr) ∧
    (sendmsgHandler tzdb 1700000000000 1700000000123 DEFAULT_TIMEZONE wClients (some wMsg)).1 =
      SendmsgResponse.ok wClients.length
        (tsOf (createTimestamp tzdb 1700000000123 DEFAULT_TIMEZONE)).iso
        (tsOf (createTimestamp tzdb 1700000000123 DEFAULT_TIMEZONE)).localStr
        (tsOf (createTimestamp tzdb 1700000000123 DEFAULT_TIMEZONE)).timezone.timezone) :=
  ⟨by decide, rfl, rfl,
    broadcast_failure_does_not_abort tzdb 1700000000000 1700000000123 DEFAULT_TIMEZONE
      wClients wMsg (by decide) rfl rfl⟩

/-- C10: a write is attempted exactly on the registry members whose transport
state is `OPEN` (in registry order); a member in any other state is skipped
with no send attempt, yet the count reported to the submitter is the full
registry size, non-`OPEN` members included. -/
theorem broadcast_attempts_only_open
    (resolve : String → Option Int) (bMs rMs : Int) (tz : String)
    (clients : Registry) (message : JSON)
    (hid : (clients.map Client.id).Nodup)
    (htz : (resolve tz).isSome = true) (hm : message.truthy = true) :
    ((runOf (broadcastMessage resolve bMs tz clients message)).deliveries.map
        Delivery.clientId =
      (clients.filter fun c => decide (c.readyState = ReadyState.OPEN)).map Client.id) ∧
    (∀ c ∈ clients, c.readyState ≠ ReadyState.OPEN →
      c.id ∉ (runOf (broadcastMessage resolve bMs tz clients message)).deliveries.map
          Delivery.clientId) ∧
    (sendmsgHandler resolve bMs rMs tz clients (some message)).1 =
      SendmsgResponse.ok clients.length
        (tsOf (createTimestamp resolve rMs tz)).iso
        (tsOf (createTimestamp resolve rMs tz)).localStr
        (tsOf (createTimestamp resolve rMs tz)).timezone.timezone := by
  obtain ⟨ts, hts⟩ := createTimestamp_isOk bMs htz
  obtain ⟨rts, hrts⟩ := createTimestamp_isOk rMs htz
  have hbm : broadcastMessage resolve bMs tz clients message =
      Except.ok { envelope := envelopeOf message ts
                  messageStr := serializeEnvelope (envelopeOf message ts)
                  deliveries :=
                    deliveriesFor clients (serializeEnvelope (envelopeOf message ts)) } := by
    simp [broadcastMessage, hts]
  refine ⟨?_, fun c hc hnot => ?_, ?_⟩
  · simp only [hbm, runOf]
    exact deliveriesFor_map_clientId clients _
  · simp only [hbm, runOf, deliveriesFor_map_clientId]
    exact not_open_not_attempted clients c hid hc hnot
  · rw [sendmsgHandler_ok_eq _ _ _ _ clients _ _ _ hts hrts hm]
    simp [tsOf, hrts]

/-- C10 witness: a registry with a `CLOSING` member between two `OPEN`
members. -/
theorem broadcast_attempts_only_open_witness :
    (wClientsMixed.map Client.id).Nodup ∧
    (tzdb DEFAULT_TIMEZONE).isSome = true ∧ JSON.truthy wMsg = true ∧
    (((runOf (broadcastMessage tzdb 1700000000000 DEFAULT_TIMEZONE wClientsMixed wMsg)).deliveries.map
        Delivery.clientId =
      (wClientsMixed.filter fun c => decide (c.readyState = ReadyState.OPEN)).map Client.id) ∧
    (∀ c ∈ wClientsMixed, c.readyState ≠ ReadyState.OPEN →
      c.id ∉ (runOf (broadcastMessage tzdb 1700000000000 DEFAULT_TIMEZONE wClientsMixed wMsg)).deliveries.map
          Delivery.clientId) ∧
    (sendmsgHandler tzdb 1700000000000 1700000000123 DEFAULT_TIMEZONE wClientsMixed (some wMsg)).1 =
      SendmsgResponse.ok wClientsMixed.length
        (tsOf (createTimestamp tzdb 1700000000123 DEFAULT_TIMEZONE)).iso
        (tsOf (createTimestamp tzdb 1700000000123 DEFAULT_TIMEZONE)).localStr
        (tsOf (createTimestamp tzdb 1700000000123 DEFAULT_TIMEZONE)).timezone.timezone) :=
  ⟨by decide, rfl, rfl,
    broadcast_attempts_only_open tzdb 1700000000000 1700000000123 DEFAULT_TIMEZONE
      wClientsMixed wMsg (by decide) rfl rfl⟩

/-! ## C7: deregistration exactly once -/

/-- The message handler never mutates the registry. -/
lemma handleMessage_registry (reg : Registry) (s : String) :
    (handleMessage reg s).registry = reg := by
  unfold handleMessage
  split
  · rfl
  · split <;> rfl

/-- No event can touch the registry on behalf of a connection that is no
longer registered. -/
lemma handleEvent_registry_of_not_mem {cid : Nat} {reg : Registry}
    (h : cid ∉ memberIds reg) (e : WsEvent) :
    (handleEvent cid reg e).registry = reg := by
  cases e with
  | close => exact deregister_of_not_mem h
  | error => exact deregister_of_not_mem h
  | message s => exact handleMessage_registry reg s

/-- Once the connection is deregistered, the rest of the event stream leaves
the registry exactly as it is. -/
lemma runEvents_of_not_mem {cid : Nat} {reg : Registry}
    (h : cid ∉ memberIds reg) (xs : List WsEvent) :
    runEvents cid reg xs = reg := by
  induction xs with
  | nil => rfl
  | cons e es ih =>
      rw [runEvents, handleEvent_registry_of_not_mem h e, ih]

/-- Once the connection is deregistered, no later event deregisters again. -/
lemma deregCount_of_not_mem {cid : Nat} {reg : Registry}
    (h : cid ∉ memberIds reg) (xs : List WsEvent) :
    deregCount cid reg xs = 0 := by
  induction xs with
  | nil => rfl
  | cons e es ih =>
      rw [deregCount]
      rw [handleEvent_registry_of_not_mem h e]
      simp only [h, false_and, if_false]
      simpa using ih

/-- Membership of a registered connection after an event prefix: present
exactly as long as no close/error trigger has occurred. -/
lemma mem_runEvents_iff {cid : Nat} {reg : Registry}
    (h : cid ∈ memberIds reg) (xs : List WsEvent) :
    cid ∈ memberIds (runEvents cid reg xs) ↔
      (xs.all fun ev => !isTrigger ev) = true := by
  induction xs generalizing reg with
  | nil => simpa using h
  | cons e es ih =>
      cases e with
      | message s =>
          rw [runEvents, List.all_cons]
          have hreg : (handleEvent cid reg (.message s)).registry = reg :=
            handleMessage_registry reg s
          rw [hreg]
          simpa [isTrigger] using ih h
      | close =>
          rw [runEvents, List.all_cons]
          have hafter : cid ∉ memberIds (handleEvent cid reg .close).registry :=
            not_mem_memberIds_deregister reg cid
          rw [runEvents_of_not_mem hafter es]
          simp [isTrigger, hafter]
      | error =>
          rw [runEvents, List.all_cons]
          have hafter : cid ∉ memberIds (handleEvent cid reg .error).registry :=
            not_mem_memberIds_deregister reg cid
          rw [runEvents_of_not_mem hafter es]
          simp [isTrigger, hafter]

/-- The deregistration count of a registered connection over any event
sequence: one if the sequence contains a close/error trigger, zero
otherwise. -/
lemma deregCount_eq {cid : Nat} {reg : Registry}
    (h : cid ∈ memberIds reg) (xs : List WsEvent) :
    deregCount cid reg xs = if xs.any isTrigger then 1 else 0 := by
  induction xs generalizing reg with
  | nil => rfl
  | cons e es ih =>
      cases e with
      | message s =>
          rw [deregCount]
          have hreg : (handleEvent cid reg (.message s)).registry = reg :=
            handleMessage_registry reg s
          rw [hreg]
          simp only [h, not_true_eq_false, and_false, if_false]
          simpa [isTrigger] using ih h
      | close =>
          rw [deregCount]
          have hafter : cid ∉ memberIds (handleEvent cid reg .close).registry :=
            not_mem_memberIds_deregister reg cid
          rw [deregCount_of_not_mem hafter es]
          simp [isTrigger, h, hafter]
      | error =>
          rw [deregCount]
          have hafter : cid ∉ memberIds (handleEvent cid reg .error).registry :=
            not_mem_memberIds_deregister reg cid
          rw [deregCount_of_not_mem hafter es]
          simp [isTrigger, h, hafter]

/-- Event streams compose. -/
lemma runEvents_append (cid : Nat) (reg : Registry) (xs ys : List WsEvent) :
    runEvents cid reg (xs ++ ys) = runEvents cid (runEvents cid reg xs) ys := by
  induction xs generalizing reg with
  | nil => rfl
  | cons e es ih => rw [List.cons_append, runEvents, runEvents, ih]

/-- C7: for a registered connection, deregistration happens exactly once,
at the first close or error trigger, whichever occurs first: the connection
stays registered precisely while no trigger has fired, the number of events
that actually remove it is one when a trigger occurs and zero otherwise, and
once some trigger has fired, a further close/error performs no
deregistration action — the registry is left exactly unchanged. -/
theorem deregistration_exactly_once (cid : Nat) (reg : Registry)
    (xs : List WsEvent) (e : WsEvent) (h : cid ∈ memberIds reg) :
    (cid ∈ memberIds (runEvents cid reg xs) ↔
      (xs.all fun ev => !isTrigger ev) = true) ∧
    deregCount cid reg xs = (if xs.any isTrigger then 1 else 0) ∧
    (xs.any isTrigger = true → isTrigger e = true →
      runEvents cid reg (xs ++ [e]) = runEvents cid reg xs) := by
  refine ⟨mem_runEvents_iff h xs, deregCount_eq h xs, fun hx _ => ?_⟩
  have hnot : cid ∉ memberIds (runEvents cid reg xs) := by
    rw [mem_runEvents_iff h xs]
    intro hall
    obtain ⟨ev, hev, htr⟩ := List.any_eq_true.mp hx
    have := List.all_eq_true.mp hall ev hev
    simp [htr] at this
  rw [runEvents_append, runEvents, runEvents,
    handleEvent_registry_of_not_mem hnot e]

/-- C7 witness: a registered connection that answers a ping, closes, and then
receives a late transport error. -/
theorem deregistration_exactly_once_witness :
    1 ∈ memberIds [⟨1, ReadyState.OPEN, true⟩, ⟨2, ReadyState.OPEN, true⟩] ∧
    ((1 ∈ memberIds (runEvents 1 [⟨1, ReadyState.OPEN, true⟩, ⟨2, ReadyState.OPEN, true⟩]
        [.message "ping", .close]) ↔
      (([.message "ping", .close] : List WsEvent).all fun ev => !isTrigger ev) = true) ∧
    deregCount 1 [⟨1, ReadyState.OPEN, true⟩, ⟨2, ReadyState.OPEN, true⟩]
        [.message "ping", .close] =
      (if ([.message "ping", .close] : List WsEvent).any isTrigger then 1 else 0) ∧
    (([.message "ping", .close] : List WsEvent).any isTrigger = true →
      isTrigger .error = true →
      runEvents 1 [⟨1, ReadyState.OPEN, true⟩, ⟨2, ReadyState.OPEN, true⟩]
          ([.message "ping", .close] ++ [.error]) =
        runEvents 1 [⟨1, ReadyState.OPEN, true⟩, ⟨2, ReadyState.OPEN, true⟩]
          [.message "ping", .close])) :=
  ⟨by decide,
    deregistration_exactly_once 1 [⟨1, ReadyState.OPEN, true⟩, ⟨2, ReadyState.OPEN, true⟩]
      [.message "ping", .close] .error (by decide)⟩

end RouterWS
